import Mathlib

/-!
Verification of the road-genome core of `self_driving/beamng_member.py`
(classes `BeamNGMember` and `RoadMutator`).

Shallow embedding conventions:
* A control / sample node is a 4-tuple `(x, y, z, width)`; Python numbers are
  modelled by `Int` (exact arithmetic).
* The external collaborators (`catmull_rom`, `RoadPolygon.is_valid`,
  `RoadBoundingBox.contains`) are parameters gathered in an `Env` record;
  they are deterministic functions, as the spec's external contracts require.
* Python's `random` module is modelled by an explicit oracle `Rng`: a stream
  of naturals for `random.randint` draws (clamped into the requested range by
  a modulus, so every draw lies in `[a, b]` whenever `a <= b`) and a stream of
  booleans for the outcome of `random.random() < xy_prob`.
* A `random.randint(a, b)` call with `a > b` raises `ValueError` in Python;
  fallible computations therefore return `Except Unit`, with `.error ()`
  standing for a raised exception.
* Loops are written as fuel-indexed recursions; the fuel bounds are chosen
  from the source's own loop bounds (the `1000000` draw ceiling, the undo
  budget, and the size of the attempted-index space).
-/

namespace BNG

/-- A control / sample node: `(x, y, z, width)`, as in the Python 4-tuples. -/
structure Node where
  x : Int
  y : Int
  z : Int
  w : Int
deriving DecidableEq, Repr, Inhabited

/-- `RoadBoundingBox`, reduced to the datum this core reads from it:
`road_bbox.bbox.bounds` (the serialized extent). -/
structure RoadBoundingBox where
  bounds : Int × Int × Int × Int
deriving DecidableEq, Repr, Inhabited

/-- The state of a `BeamNGMember` genome: the fields read or written by the
operations under verification (`control_nodes`, `sample_nodes`,
`num_spline_nodes`, `road_bbox`, the two evaluation-cache fields). -/
structure BeamNGMember where
  control_nodes : List Node
  sample_nodes : List Node
  num_spline_nodes : Nat
  road_bbox : RoadBoundingBox
  distance_to_boundary : Option Int
  simulation : Option Nat
deriving DecidableEq, Repr, Inhabited

/-- External collaborators consumed by this core: the Spline Interpolator
(`catmull_rom`), polygon self-intersection validity
(`RoadPolygon.from_nodes(pts).is_valid()`), and bounding-region containment
(`road_bbox.contains(RoadPolygon.from_nodes(pts))`). -/
structure Env where
  catmull_rom : List Node → Nat → List Node
  polygon_is_valid : List Node → Bool
  bbox_contains : RoadBoundingBox → List Node → Bool

/-- `BeamNGMember.is_valid`:
`RoadPolygon.from_nodes(sample_nodes).is_valid() and
 road_bbox.contains(RoadPolygon.from_nodes(control_nodes[1:-1]))`. -/
def is_valid (E : Env) (g : BeamNGMember) : Bool :=
  E.polygon_is_valid g.sample_nodes &&
    E.bbox_contains g.road_bbox ((g.control_nodes.drop 1).dropLast)

/-- `BeamNGMember.needs_evaluation`:
`distance_to_boundary is None or simulation is None`. -/
def needs_evaluation (g : BeamNGMember) : Bool :=
  g.distance_to_boundary.isNone || g.simulation.isNone

/-- `BeamNGMember.clear_evaluation`: `self.distance_to_boundary = None`. -/
def clear_evaluation (g : BeamNGMember) : BeamNGMember :=
  { g with distance_to_boundary := none }

/-- `BeamNGMember.clone`: fresh member built from copies of the node lists,
the same `num_spline_nodes` and `road_bbox`; `__init__` leaves both
evaluation-cache fields unset. -/
def clone (g : BeamNGMember) : BeamNGMember :=
  { control_nodes := g.control_nodes
    sample_nodes := g.sample_nodes
    num_spline_nodes := g.num_spline_nodes
    road_bbox := g.road_bbox
    distance_to_boundary := none
    simulation := none }

/-- The record produced by `BeamNGMember.to_dict` (the `name` diagnostic
field is omitted: no claim reads it). -/
structure MemberDict where
  control_nodes : List Node
  sample_nodes : List Node
  num_spline_nodes : Nat
  road_bbox_size : Int × Int × Int × Int
  distance_to_boundary : Option Int
deriving DecidableEq, Repr

/-- `BeamNGMember.to_dict`. -/
def to_dict (g : BeamNGMember) : MemberDict :=
  { control_nodes := g.control_nodes
    sample_nodes := g.sample_nodes
    num_spline_nodes := g.num_spline_nodes
    road_bbox_size := g.road_bbox.bounds
    distance_to_boundary := g.distance_to_boundary }

/-- `BeamNGMember.from_dict`: rebuilds the bounding box from
`road_bbox_size`, re-tuples the node lists, and copies
`distance_to_boundary`; the constructor leaves `simulation` unset. -/
def from_dict (d : MemberDict) : BeamNGMember :=
  { control_nodes := d.control_nodes
    sample_nodes := d.sample_nodes
    num_spline_nodes := d.num_spline_nodes
    road_bbox := { bounds := d.road_bbox_size }
    distance_to_boundary := d.distance_to_boundary
    simulation := none }

/-- Oracle model of Python's `random`: a stream of naturals feeding
`random.randint` draws and a stream of booleans recording the outcome of each
`random.random() < xy_prob` comparison, with a cursor into each stream. -/
structure Rng where
  ints : Nat → Nat
  coins : Nat → Bool
  itick : Nat
  ctick : Nat

/-- `random.randint(a, b)`: the next stream value, clamped into `[a, b]` by a
modulus (so the draw lies in `[a, b]` whenever `a ≤ b`; callers model the
`a > b` `ValueError` case separately). -/
def randint (a b : Int) (r : Rng) : Int × Rng :=
  (a + (r.ints r.itick % (b - a + 1).toNat : Nat), { r with itick := r.itick + 1 })

/-- Outcome of one `random.random() < xy_prob` comparison. -/
def coin (r : Rng) : Bool × Rng :=
  (r.coins r.ctick, { r with ctick := r.ctick + 1 })

/-- `gene[c] += v` for a coordinate slot `c ∈ {0, 1}` of a node. -/
def Node.bump (p : Node) (c : Nat) (v : Int) : Node :=
  if c = 1 then { p with y := p.y + v } else { p with x := p.x + v }

/-- `RoadMutator.mutate_gene(index)`: draw a magnitude in
`[lower_bound, higher_bound]` (bumping an exact 0 by 1), pick coordinate 1
with probability `xy_prob` else 0, add the magnitude to that coordinate of
`control_nodes[index]`, and recompute `sample_nodes` with `catmull_rom`.
Returns `(c, mut_value)` plus the updated genome.  A `lower_bound >
higher_bound` pair would make `random.randint` raise, modelled as `.error`. -/
def mutate_gene (E : Env) (lb ub : Int) (g : BeamNGMember) (index : Nat) (r : Rng) :
    Except Unit ((Nat × Int) × BeamNGMember × Rng) :=
  if lb ≤ ub then
    let p1 := randint lb ub r
    let mv := if p1.1 = 0 then p1.1 + 1 else p1.1
    let p2 := coin p1.2
    let c : Nat := if p2.1 then 1 else 0
    let gene := (g.control_nodes.getD index default).bump c mv
    let cn := g.control_nodes.set index gene
    .ok ((c, mv),
         { g with control_nodes := cn, sample_nodes := E.catmull_rom cn g.num_spline_nodes },
         p2.2)
  else .error ()

/-- `RoadMutator.undo_mutation(index, c, mut_value)`: subtract the magnitude
from the same coordinate and recompute `sample_nodes`. -/
def undo_mutation (E : Env) (g : BeamNGMember) (index : Nat) (c : Nat) (mv : Int) :
    BeamNGMember :=
  let gene := (g.control_nodes.getD index default).bump c (-mv)
  let cn := g.control_nodes.set index gene
  { g with control_nodes := cn, sample_nodes := E.catmull_rom cn g.num_spline_nodes }

/-- The collision loop inside `next_gene_index`: while the drawn `i` is
already attempted, redraw; the counter `j` is capped at `1000000` redraw
rounds (modelled by the fuel), and the round that exceeds the cap still
performs its redraw before giving up with `-1`, exactly as in the source.
A fresh `i` is added to the attempted list and returned. -/
def draw_loop (n : Int) : Nat → Int → List Int → Rng → Int × List Int × Rng
  | fuel, i, att, r =>
    if i ∈ att then
      match fuel with
      | 0 =>
        let p := randint 3 (n - 3) r
        (-1, att, p.2)
      | f + 1 =>
        let p := randint 3 (n - 3) r
        draw_loop n f p.1 att p.2
    else (i, i :: att, r)

/-- `next_gene_index` (closure inside `RoadMutator.mutate`): report
exhaustion (`-1`) once `len(attempted_genes) == n - 5`; otherwise draw from
`randint(3, n-3)` — which raises `ValueError` when `3 > n - 3`, modelled as
`.error` — and run the collision loop. -/
def next_gene_index (n : Int) (att : List Int) (r : Rng) :
    Except Unit (Int × List Int × Rng) :=
  if (att.length : Int) = n - 5 then .ok (-1, att, r)
  else if 3 ≤ n - 3 then
    let p := randint 3 (n - 3) r
    .ok (draw_loop n 1000000 p.1 att p.2)
  else .error ()

/-- The inner undo/retry loop of `RoadMutator.mutate`:
`while not is_valid and attempt < num_undo_attempts`.  `remaining` is the
budget minus the attempts already made; `used` counts the executed loop
bodies (each of which increments the process-wide `Config.INVALID` counter in
the source).  Returns the final genome, rng, the final `is_valid` flag, and
the attempt count. -/
def retry_loop (E : Env) (lb ub : Int) (index : Nat) :
    Nat → BeamNGMember → Nat → Int → Rng → Nat →
    Except Unit (BeamNGMember × Rng × Bool × Nat)
  | 0, g, _, _, r, used =>
    if is_valid E g then .ok (g, r, true, used)
    else .ok (g, r, false, used)
  | rem + 1, g, c, mv, r, used =>
    if is_valid E g then .ok (g, r, true, used)
    else
      match mutate_gene E lb ub (undo_mutation E g index c mv) index r with
      | .error e => .error e
      | .ok (cm, g2, r2) => retry_loop E lb ub index rem g2 cm.1 cm.2 r2 (used + 1)

/-- The outer `while gene_index != -1` loop of `RoadMutator.mutate`.  Each
iteration perturbs the current gene (`mutate_gene`), runs the undo/retry loop
on it, breaks on validity, and otherwise moves to a fresh index from
`next_gene_index`.  The fuel only bounds the recursion; the caller supplies
`(n - 5).toNat`, which covers every reachable iteration because each
non-final iteration grows the attempted list by one and exhaustion fires at
length `n - 5`.  `acc` accumulates the maximum per-gene attempt count.
Returns the genome, the final `gene_index`, the rng, and `acc`. -/
def mutate_loop (E : Env) (lb ub : Int) (budget : Nat) (n : Int) :
    Nat → Int → List Int → BeamNGMember → Rng → Nat →
    Except Unit (BeamNGMember × Int × Rng × Nat)
  | 0, gi, att, g, r, acc =>
    if gi = -1 then .ok (g, gi, r, acc)
    else
      match mutate_gene E lb ub g gi.toNat r with
      | .error e => .error e
      | .ok (cm, g1, r1) =>
        match retry_loop E lb ub gi.toNat budget g1 cm.1 cm.2 r1 0 with
        | .error e => .error e
        | .ok (g2, r2, valid, used) =>
          if valid then .ok (g2, gi, r2, max acc used)
          else
            match next_gene_index n att r2 with
            | .error e => .error e
            | .ok _ => .error ()
  | f + 1, gi, att, g, r, acc =>
    if gi = -1 then .ok (g, gi, r, acc)
    else
      match mutate_gene E lb ub g gi.toNat r with
      | .error e => .error e
      | .ok (cm, g1, r1) =>
        match retry_loop E lb ub gi.toNat budget g1 cm.1 cm.2 r1 0 with
        | .error e => .error e
        | .ok (g2, r2, valid, used) =>
          if valid then .ok (g2, gi, r2, max acc used)
          else
            match next_gene_index n att r2 with
            | .error e => .error e
            | .ok (gi2, att2, r3) =>
              mutate_loop E lb ub budget n f gi2 att2 g2 r3 (max acc used)

/-- `RoadMutator.mutate` up to (and including) the
`if gene_index == -1: control_nodes = backup_nodes` restoration, i.e. the
state reaching the final success check on lines 193–197. -/
def mutate_core (E : Env) (lb ub : Int) (budget : Nat) (g : BeamNGMember) (r : Rng) :
    Except Unit (BeamNGMember × Rng × Nat) :=
  match next_gene_index ((g.control_nodes.length : Int) - 2) [] r with
  | .error e => .error e
  | .ok (gi0, att0, r0) =>
    match mutate_loop E lb ub budget ((g.control_nodes.length : Int) - 2)
        (((g.control_nodes.length : Int) - 2 - 5).toNat) gi0 att0 g r0 0 with
    | .error e => .error e
    | .ok (g2, giF, r2, acc) =>
      if giF = -1 then .ok ({ g2 with control_nodes := g.control_nodes }, r2, acc)
      else .ok (g2, r2, acc)

/-- `RoadMutator.mutate(num_undo_attempts)`: run the search, then the final
check — success iff the genome is valid and `control_nodes` differs from the
snapshot; otherwise restore the snapshot and return `False`. -/
def RoadMutator.mutate (E : Env) (lb ub : Int) (budget : Nat) (g : BeamNGMember)
    (r : Rng) : Except Unit ((Bool × BeamNGMember) × Rng × Nat) :=
  match mutate_core E lb ub budget g r with
  | .error e => .error e
  | .ok (gF, rF, acc) =>
    if is_valid E gF = true ∧ gF.control_nodes ≠ g.control_nodes then
      .ok ((true, gF), rF, acc)
    else
      .ok ((false, { gF with control_nodes := g.control_nodes }), rF, acc)

/-- `RoadMutator.NUM_UNDO_ATTEMPTS` (class constant, line 120). -/
def RoadMutator.NUM_UNDO_ATTEMPTS : Nat := 20

/-- `BeamNGMember.mutate`: delegates to
`RoadMutator(self, -MUTATION_EXTENT, MUTATION_EXTENT).mutate()` with the
default `num_undo_attempts = 10`, then unconditionally sets
`distance_to_boundary = None`, and returns the genome on success or `None`
on failure.  The result carries the returned value, the genome's final
state, the rng, and the instrumented per-gene attempt maximum. -/
def BeamNGMember.mutate (E : Env) (extent : Nat) (g : BeamNGMember) (r : Rng) :
    Except Unit (Option BeamNGMember × BeamNGMember × Rng × Nat) :=
  match RoadMutator.mutate E (-(extent : Int)) (extent : Int) 10 g r with
  | .error e => .error e
  | .ok (fg, r2, acc) =>
    .ok (if fg.1 then some { fg.2 with distance_to_boundary := none } else none,
         { fg.2 with distance_to_boundary := none }, r2, acc)

/-! Result projections that discard the rng (whose stream fields have no
decidable equality), so that claims and their witnesses can state concrete,
decidable facts about runs. -/

/-- `mutate_gene` outcome without the rng. -/
def mutateGeneResult (E : Env) (lb ub : Int) (g : BeamNGMember) (index : Nat)
    (r : Rng) : Option ((Nat × Int) × BeamNGMember) :=
  match mutate_gene E lb ub g index r with
  | .ok (cm, g1, _) => some (cm, g1)
  | .error _ => none

/-- `next_gene_index` outcome without the rng. -/
def nextGeneIndexResult (n : Int) (att : List Int) (r : Rng) :
    Option (Int × List Int) :=
  match next_gene_index n att r with
  | .ok (i, att2, _) => some (i, att2)
  | .error _ => none

/-- `mutate_core` outcome without the rng. -/
def mutateCoreResult (E : Env) (lb ub : Int) (budget : Nat) (g : BeamNGMember)
    (r : Rng) : Option BeamNGMember :=
  match mutate_core E lb ub budget g r with
  | .ok (gF, _, _) => some gF
  | .error _ => none

/-- `RoadMutator.mutate` outcome (flag and final genome) without the rng. -/
def roadMutateResult (E : Env) (lb ub : Int) (budget : Nat) (g : BeamNGMember)
    (r : Rng) : Option (Bool × BeamNGMember) :=
  match RoadMutator.mutate E lb ub budget g r with
  | .ok (fg, _, _) => some fg
  | .error _ => none

/-- `BeamNGMember.mutate` outcome (returned value and final genome state)
without the rng. -/
def memberMutateResult (E : Env) (extent : Nat) (g : BeamNGMember) (r : Rng) :
    Option (Option BeamNGMember × BeamNGMember) :=
  match BeamNGMember.mutate E extent g r with
  | .ok (res, g3, _, _) => some (res, g3)
  | .error _ => none

/-- The maximum per-gene undo-attempt count of a `BeamNGMember.mutate` run. -/
def memberMutateAttempts (E : Env) (extent : Nat) (g : BeamNGMember) (r : Rng) :
    Option Nat :=
  match BeamNGMember.mutate E extent g r with
  | .ok (_, _, _, acc) => some acc
  | .error _ => none

/-! Concrete fixtures used by counterexamples and witnesses. -/

/-- `k` nodes `(j, 0, 0, 0)`, `j = 0 .. k-1`. -/
def nodesOf (k : Nat) : List Node := (List.range k).map (fun j => ⟨j, 0, 0, 0⟩)

/-- A genome with `k` control nodes, consistent sample nodes under an
identity interpolator, and a cached distance-to-boundary of `1`. -/
def genomeOf (k : Nat) : BeamNGMember :=
  { control_nodes := nodesOf k
    sample_nodes := nodesOf k
    num_spline_nodes := 4
    road_bbox := ⟨(0, 0, 10, 10)⟩
    distance_to_boundary := some 1
    simulation := none }

/-- Environment whose interpolator is the identity and whose validity oracle
accepts everything. -/
def envAlwaysValid : Env := ⟨fun cn _ => cn, fun _ => true, fun _ _ => true⟩

/-- Environment whose interpolator is the identity and whose polygon oracle
rejects everything. -/
def envNeverValid : Env := ⟨fun cn _ => cn, fun _ => false, fun _ _ => true⟩

/-- Rng whose draws are all `0` and whose coordinate coin always picks `x`. -/
def rngZero : Rng := ⟨fun _ => 0, fun _ => false, 0, 0⟩

/-- Rng whose first `randint` draw is offset `2` (so `randint(3, 5)` yields
`5`), all later draws `0`, coordinate coin always `x`. -/
def rngDraw5 : Rng := ⟨fun k => if k = 0 then 2 else 0, fun _ => false, 0, 0⟩

/-- The genome produced by `mutate_gene` on `genomeOf 8` at index 3 with the
all-zero rng under the identity interpolator: `x` of node 3 moved by `-2`. -/
def gene8after : BeamNGMember :=
  { control_nodes := (nodesOf 8).set 3 ⟨1, 0, 0, 0⟩
    sample_nodes := (nodesOf 8).set 3 ⟨1, 0, 0, 0⟩
    num_spline_nodes := 4
    road_bbox := ⟨(0, 0, 10, 10)⟩
    distance_to_boundary := some 1
    simulation := none }

/-- Anchor-stability invariant relative to the pre-call snapshot: same
length, same first 3 nodes, same last 3 nodes. -/
def anchors (backup cn : List Node) : Prop :=
  cn.length = backup.length ∧ cn.take 3 = backup.take 3 ∧
  cn.drop (backup.length - 3) = backup.drop (backup.length - 3)

/-- Derived-field consistency: `sample_nodes` is the interpolation of the
current `control_nodes` at `num_spline_nodes`. -/
def consistent (E : Env) (g : BeamNGMember) : Prop :=
  g.sample_nodes = E.catmull_rom g.control_nodes g.num_spline_nodes

/-! Helper lemmas about `List.set`. -/

/-- Writing back the value already stored at a valid index is the identity. -/
theorem set_getD_self {α : Type u} :
    ∀ (l : List α) (i : Nat) (d : α), i < l.length → l.set i (l.getD i d) = l
  | _ :: _, 0, _, _ => rfl
  | a :: t, i + 1, d, h => by
    have ht : i < t.length := Nat.lt_of_succ_lt_succ h
    show a :: t.set i (t.getD i d) = a :: t
    rw [set_getD_self t i d ht]

/-- Reading back the value just written at a valid index. -/
theorem getD_set_self {α : Type u} (a d : α) :
    ∀ (l : List α) (i : Nat), i < l.length → (l.set i a).getD i d = a
  | _ :: _, 0, _ => rfl
  | b :: t, i + 1, h => by
    have ht : i < t.length := Nat.lt_of_succ_lt_succ h
    show (t.set i a).getD i d = a
    exact getD_set_self a d t i ht

/-- Writing at or beyond index `k` leaves the first `k` elements alone. -/
theorem take_set_of_le {α : Type u} (a : α) :
    ∀ (l : List α) (i k : Nat), k ≤ i → (l.set i a).take k = l.take k
  | [], _, _, _ => rfl
  | _ :: _, 0, k, h => by
    have : k = 0 := Nat.le_zero.mp h
    subst this
    rfl
  | _ :: _, _ + 1, 0, _ => rfl
  | b :: t, i + 1, k + 1, h => by
    show b :: (t.set i a).take k = b :: t.take k
    rw [take_set_of_le a t i k (Nat.le_of_succ_le_succ h)]

/-- Writing strictly below index `m` leaves the elements from `m` on alone. -/
theorem drop_set_of_lt {α : Type u} (a : α) :
    ∀ (l : List α) (i m : Nat), i < m → (l.set i a).drop m = l.drop m
  | [], _, _, _ => rfl
  | _ :: t, 0, m + 1, _ => by
    show t.drop m = t.drop m
    rfl
  | b :: t, i + 1, m + 1, h => by
    show (t.set i a).drop m = t.drop m
    exact drop_set_of_lt a t i m (Nat.lt_of_succ_lt_succ h)

/-- Two writes at the same index collapse to the second one. -/
theorem set_set_self {α : Type u} (a b : α) :
    ∀ (l : List α) (i : Nat), (l.set i a).set i b = l.set i b
  | [], _ => rfl
  | _ :: _, 0 => rfl
  | c :: t, i + 1 => by
    show c :: (t.set i a).set i b = c :: t.set i b
    rw [set_set_self a b t i]

/-- Adding `v` then `-v` to the same coordinate slot is the identity. -/
theorem bump_bump_neg (p : Node) (c : Nat) (v : Int) :
    (p.bump c v).bump c (-v) = p := by
  unfold Node.bump
  by_cases hc : c = 1 <;> cases p <;> simp [hc]

/-! Lemmas about the random draws and the index search. -/

/-- A `randint a b` draw lies in `[a, b]` whenever `a ≤ b`. -/
theorem randint_mem (a b : Int) (r : Rng) (h : a ≤ b) :
    a ≤ (randint a b r).1 ∧ (randint a b r).1 ≤ b := by
  unfold randint
  have h1 : 0 < (b - a + 1).toNat := by omega
  have h2 : r.ints r.itick % (b - a + 1).toNat < (b - a + 1).toNat :=
    Nat.mod_lt _ h1
  constructor
  · omega
  · omega

/-- The collision loop either gives up with `-1` (attempted list unchanged)
or returns a fresh in-range index, consed onto the attempted list. -/
theorem draw_loop_spec (n : Int) (hn : 3 ≤ n - 3) (att : List Int) :
    ∀ (fuel : Nat) (i : Int) (r : Rng), 3 ≤ i → i ≤ n - 3 →
      ((draw_loop n fuel i att r).1 = -1 ∧
        (draw_loop n fuel i att r).2.1 = att) ∨
      (3 ≤ (draw_loop n fuel i att r).1 ∧
        (draw_loop n fuel i att r).1 ≤ n - 3 ∧
        (draw_loop n fuel i att r).1 ∉ att ∧
        (draw_loop n fuel i att r).2.1 = (draw_loop n fuel i att r).1 :: att) := by
  intro fuel
  induction fuel with
  | zero =>
    intro i r h3 hn3
    unfold draw_loop
    by_cases hm : i ∈ att
    · rw [if_pos hm]
      exact Or.inl ⟨rfl, rfl⟩
    · rw [if_neg hm]
      exact Or.inr ⟨h3, hn3, hm, rfl⟩
  | succ f ih =>
    intro i r h3 hn3
    unfold draw_loop
    by_cases hm : i ∈ att
    · rw [if_pos hm]
      have hb := randint_mem 3 (n - 3) r hn
      exact ih _ _ hb.1 hb.2
    · rw [if_neg hm]
      exact Or.inr ⟨h3, hn3, hm, rfl⟩

/-- `next_gene_index` characterization: a successful (non-raising) call
either reports exhaustion with the attempted list unchanged, or returns a
fresh index in `[3, n-3]` pushed onto the attempted list; and exhaustion is
reported immediately whenever the attempted count equals `n - 5`. -/
theorem next_gene_index_spec (n : Int) (att : List Int) (r : Rng) (i : Int)
    (att2 : List Int) (r2 : Rng)
    (h : next_gene_index n att r = .ok (i, att2, r2)) :
    (i = -1 ∧ att2 = att) ∨
    (3 ≤ i ∧ i ≤ n - 3 ∧ i ∉ att ∧ att2 = i :: att) := by
  unfold next_gene_index at h
  by_cases hx : (att.length : Int) = n - 5
  · simp only [if_pos hx, Except.ok.injEq, Prod.mk.injEq] at h
    exact Or.inl ⟨h.1.symm, h.2.1.symm⟩
  · by_cases hy : (3 : Int) ≤ n - 3
    · simp only [if_neg hx, if_pos hy, Except.ok.injEq] at h
      have hb := randint_mem 3 (n - 3) r hy
      have hs := draw_loop_spec n hy att 1000000 (randint 3 (n - 3) r).1
        (randint 3 (n - 3) r).2 hb.1 hb.2
      rw [h] at hs
      rcases hs with ⟨h1, h2⟩ | ⟨h1, h2, h3, h4⟩
      · exact Or.inl ⟨h1, h2⟩
      · exact Or.inr ⟨h1, h2, h3, h4⟩
    · simp only [if_neg hx, if_neg hy] at h
      exact absurd h (by simp)

/-- Inversion for a successful `mutate_gene` call: the output genome is the
input with the returned coordinate slot of node `index` moved by the
returned magnitude and `sample_nodes` recomputed. -/
theorem mutate_gene_ok (E : Env) (lb ub : Int) (g : BeamNGMember)
    (index : Nat) (r : Rng) (cm : Nat × Int) (g1 : BeamNGMember) (r1 : Rng)
    (h : mutate_gene E lb ub g index r = .ok (cm, g1, r1)) :
    g1 = { g with
      control_nodes := g.control_nodes.set index
        ((g.control_nodes.getD index default).bump cm.1 cm.2),
      sample_nodes := E.catmull_rom
        (g.control_nodes.set index
          ((g.control_nodes.getD index default).bump cm.1 cm.2))
        g.num_spline_nodes } := by
  unfold mutate_gene at h
  by_cases hb : lb ≤ ub
  · simp only [if_pos hb, Except.ok.injEq, Prod.mk.injEq] at h
    obtain ⟨hcm, hg, _⟩ := h
    rw [← hg, ← hcm]
  · simp only [if_neg hb] at h
    exact absurd h (by simp)

/-! Invariant lemmas threaded through the mutation loops. -/

/-- `anchors` is reflexive. -/
theorem anchors_refl (backup : List Node) : anchors backup backup :=
  ⟨rfl, rfl, rfl⟩

/-- Writing one node at an interior index `i ∈ [3, len-5]` preserves the
anchor invariant. -/
theorem anchors_set (backup cn : List Node) (x : Node) (i : Nat)
    (h : anchors backup cn) (h3 : 3 ≤ i)
    (h5 : (i : Int) ≤ (backup.length : Int) - 5) :
    anchors backup (cn.set i x) := by
  obtain ⟨hl, ht, hd⟩ := h
  refine ⟨?_, ?_, ?_⟩
  · rw [List.length_set]
    exact hl
  · rw [take_set_of_le _ _ _ _ h3]
    exact ht
  · have hi : i < backup.length - 3 := by omega
    rw [drop_set_of_lt _ _ _ _ hi]
    exact hd

/-- A successful `mutate_gene` at an interior index preserves the anchor
invariant. -/
theorem mutate_gene_anchors (E : Env) (lb ub : Int) (g : BeamNGMember)
    (index : Nat) (r : Rng) (cm : Nat × Int) (g1 : BeamNGMember) (r1 : Rng)
    (backup : List Node) (h : mutate_gene E lb ub g index r = .ok (cm, g1, r1))
    (ha : anchors backup g.control_nodes) (h3 : 3 ≤ index)
    (h5 : (index : Int) ≤ (backup.length : Int) - 5) :
    anchors backup g1.control_nodes := by
  rw [mutate_gene_ok E lb ub g index r cm g1 r1 h]
  exact anchors_set _ _ _ _ ha h3 h5

/-- `undo_mutation` at an interior index preserves the anchor invariant. -/
theorem undo_mutation_anchors (E : Env) (g : BeamNGMember) (index : Nat)
    (c : Nat) (mv : Int) (backup : List Node)
    (ha : anchors backup g.control_nodes) (h3 : 3 ≤ index)
    (h5 : (index : Int) ≤ (backup.length : Int) - 5) :
    anchors backup (undo_mutation E g index c mv).control_nodes :=
  anchors_set _ _ _ _ ha h3 h5

/-- A successful `mutate_gene` always leaves the genome consistent: it
recomputes `sample_nodes` from the updated `control_nodes`. -/
theorem mutate_gene_consistent (E : Env) (lb ub : Int) (g : BeamNGMember)
    (index : Nat) (r : Rng) (cm : Nat × Int) (g1 : BeamNGMember) (r1 : Rng)
    (h : mutate_gene E lb ub g index r = .ok (cm, g1, r1)) :
    consistent E g1 := by
  rw [mutate_gene_ok E lb ub g index r cm g1 r1 h]
  rfl

/-- `undo_mutation` always leaves the genome consistent. -/
theorem undo_mutation_consistent (E : Env) (g : BeamNGMember) (index : Nat)
    (c : Nat) (mv : Int) : consistent E (undo_mutation E g index c mv) :=
  rfl

/-- Master lemma for the inner undo/retry loop: the anchor invariant is
preserved, consistency is preserved, and the attempt counter grows by at
most the remaining budget. -/
theorem retry_loop_master (E : Env) (lb ub : Int) (index : Nat)
    (backup : List Node) (h3 : 3 ≤ index)
    (h5 : (index : Int) ≤ (backup.length : Int) - 5) :
    ∀ (rem : Nat) (g : BeamNGMember) (c : Nat) (mv : Int) (r : Rng)
      (used : Nat) (g2 : BeamNGMember) (r2 : Rng) (v : Bool) (u2 : Nat),
      anchors backup g.control_nodes →
      retry_loop E lb ub index rem g c mv r used = .ok (g2, r2, v, u2) →
      anchors backup g2.control_nodes ∧ (consistent E g → consistent E g2) ∧
        u2 ≤ used + rem := by
  intro rem
  induction rem with
  | zero =>
    intro g c mv r used g2 r2 v u2 ha h
    unfold retry_loop at h
    split at h
    · simp only [Except.ok.injEq, Prod.mk.injEq] at h
      obtain ⟨rfl, rfl, rfl, rfl⟩ := h
      exact ⟨ha, fun hc => hc, Nat.le_refl _⟩
    · simp only [Except.ok.injEq, Prod.mk.injEq] at h
      obtain ⟨rfl, rfl, rfl, rfl⟩ := h
      exact ⟨ha, fun hc => hc, Nat.le_refl _⟩
  | succ rem ih =>
    intro g c mv r used g2 r2 v u2 ha h
    unfold retry_loop at h
    split at h
    · simp only [Except.ok.injEq, Prod.mk.injEq] at h
      obtain ⟨rfl, rfl, rfl, rfl⟩ := h
      exact ⟨ha, fun hc => hc, Nat.le_add_right _ _⟩
    · split at h
      · exact absurd h (by simp)
      · rename_i cm g1 r1 heq
        have ha0 := undo_mutation_anchors E g index c mv backup ha h3 h5
        have ha1 := mutate_gene_anchors E lb ub (undo_mutation E g index c mv)
          index r cm g1 r1 backup heq ha0 h3 h5
        have hc1 := mutate_gene_consistent E lb ub (undo_mutation E g index c mv)
          index r cm g1 r1 heq
        have hrec := ih g1 cm.1 cm.2 r1 (used + 1) g2 r2 v u2 ha1 h
        refine ⟨hrec.1, fun _ => hrec.2.1 hc1, ?_⟩
        have := hrec.2.2
        omega

/-- Master lemma for the outer gene-search loop: the anchor invariant is
preserved; a loop exit with a non `-1` gene index (a validity break) leaves
a consistent genome; and the accumulated per-gene attempt maximum is bounded
by `max acc budget`. -/
theorem mutate_loop_master (E : Env) (lb ub : Int) (budget : Nat) (n : Int)
    (backup : List Node) (hn : n = (backup.length : Int) - 2) :
    ∀ (fuel : Nat) (gi : Int) (att : List Int) (g : BeamNGMember) (r : Rng)
      (acc : Nat) (g2 : BeamNGMember) (giF : Int) (r2 : Rng) (acc2 : Nat),
      anchors backup g.control_nodes →
      (gi = -1 ∨ (3 ≤ gi ∧ gi ≤ n - 3)) →
      mutate_loop E lb ub budget n fuel gi att g r acc = .ok (g2, giF, r2, acc2) →
      anchors backup g2.control_nodes ∧ (giF ≠ -1 → consistent E g2) ∧
        acc2 ≤ max acc budget := by
  intro fuel
  induction fuel with
  | zero =>
    intro gi att g r acc g2 giF r2 acc2 ha hgi h
    unfold mutate_loop at h
    split at h
    · rename_i hgim
      simp only [Except.ok.injEq, Prod.mk.injEq] at h
      obtain ⟨rfl, rfl, rfl, rfl⟩ := h
      exact ⟨ha, fun hne => absurd hgim hne, Nat.le_max_left _ _⟩
    · rename_i hgim
      have hbounds : 3 ≤ gi ∧ gi ≤ n - 3 := hgi.resolve_left hgim
      have h3 : 3 ≤ gi.toNat := by omega
      have h5 : (gi.toNat : Int) ≤ (backup.length : Int) - 5 := by omega
      split at h
      · exact absurd h (by simp)
      · rename_i cm g1 r1 heq
        have ha1 := mutate_gene_anchors E lb ub g gi.toNat r cm g1 r1 backup
          heq ha h3 h5
        have hc1 := mutate_gene_consistent E lb ub g gi.toNat r cm g1 r1 heq
        split at h
        · exact absurd h (by simp)
        · rename_i g3 r3 valid used heq2
          have hret := retry_loop_master E lb ub gi.toNat backup h3 h5
            budget g1 cm.1 cm.2 r1 0 g3 r3 valid used ha1 heq2
          split at h
          · simp only [Except.ok.injEq, Prod.mk.injEq] at h
            obtain ⟨rfl, rfl, rfl, rfl⟩ := h
            exact ⟨hret.1, fun _ => hret.2.1 hc1, by
              have := hret.2.2
              omega⟩
          · split at h
            · exact absurd h (by simp)
            · exact absurd h (by simp)
  | succ f ih =>
    intro gi att g r acc g2 giF r2 acc2 ha hgi h
    unfold mutate_loop at h
    split at h
    · rename_i hgim
      simp only [Except.ok.injEq, Prod.mk.injEq] at h
      obtain ⟨rfl, rfl, rfl, rfl⟩ := h
      exact ⟨ha, fun hne => absurd hgim hne, Nat.le_max_left _ _⟩
    · rename_i hgim
      have hbounds : 3 ≤ gi ∧ gi ≤ n - 3 := hgi.resolve_left hgim
      have h3 : 3 ≤ gi.toNat := by omega
      have h5 : (gi.toNat : Int) ≤ (backup.length : Int) - 5 := by omega
      split at h
      · exact absurd h (by simp)
      · rename_i cm g1 r1 heq
        have ha1 := mutate_gene_anchors E lb ub g gi.toNat r cm g1 r1 backup
          heq ha h3 h5
        have hc1 := mutate_gene_consistent E lb ub g gi.toNat r cm g1 r1 heq
        split at h
        · exact absurd h (by simp)
        · rename_i g3 r3 valid used heq2
          have hret := retry_loop_master E lb ub gi.toNat backup h3 h5
            budget g1 cm.1 cm.2 r1 0 g3 r3 valid used ha1 heq2
          split at h
          · simp only [Except.ok.injEq, Prod.mk.injEq] at h
            obtain ⟨rfl, rfl, rfl, rfl⟩ := h
            exact ⟨hret.1, fun _ => hret.2.1 hc1, by
              have := hret.2.2
              omega⟩
          · split at h
            · exact absurd h (by simp)
            · rename_i gi2 att2 r4 heq3
              have hgi2 : gi2 = -1 ∨ (3 ≤ gi2 ∧ gi2 ≤ n - 3) := by
                rcases next_gene_index_spec n att r3 gi2 att2 r4 heq3 with
                  ⟨h1, _⟩ | ⟨h1, h2, _, _⟩
                · exact Or.inl h1
                · exact Or.inr ⟨h1, h2⟩
              have := ih gi2 att2 g3 r4 (max acc used) g2 giF r2 acc2
                hret.1 hgi2 h
              refine ⟨this.1, this.2.1, ?_⟩
              have hu := hret.2.2
              have ha2 := this.2.2
              omega

/-- Master lemma for `mutate_core`: the anchor invariant relates the final
pre-check state to the snapshot; if its `control_nodes` differ from the
snapshot it is consistent; and the attempt maximum is at most the budget. -/
theorem mutate_core_master (E : Env) (lb ub : Int) (budget : Nat)
    (g : BeamNGMember) (r : Rng) (gF : BeamNGMember) (rF : Rng) (acc : Nat)
    (h : mutate_core E lb ub budget g r = .ok (gF, rF, acc)) :
    anchors g.control_nodes gF.control_nodes ∧
    (gF.control_nodes ≠ g.control_nodes → consistent E gF) ∧ acc ≤ budget := by
  unfold mutate_core at h
  split at h
  · exact absurd h (by simp)
  · rename_i gi0 att0 r0 heq0
    have hgi0 : gi0 = -1 ∨ (3 ≤ gi0 ∧ gi0 ≤ ((g.control_nodes.length : Int) - 2) - 3) := by
      rcases next_gene_index_spec _ _ _ _ _ _ heq0 with ⟨h1, _⟩ | ⟨h1, h2, _, _⟩
      · exact Or.inl h1
      · exact Or.inr ⟨h1, h2⟩
    split at h
    · exact absurd h (by simp)
    · rename_i g2 giF r2 acc0 heq1
      have hml := mutate_loop_master E lb ub budget _ g.control_nodes rfl
        _ gi0 att0 g r0 0 g2 giF r2 acc0 (anchors_refl _) hgi0 heq1
      split at h
      · simp only [Except.ok.injEq, Prod.mk.injEq] at h
        obtain ⟨rfl, rfl, rfl⟩ := h
        exact ⟨anchors_refl _, fun hne => absurd rfl hne,
          le_trans hml.2.2 (by omega)⟩
      · rename_i hgne
        simp only [Except.ok.injEq, Prod.mk.injEq] at h
        obtain ⟨rfl, rfl, rfl⟩ := h
        exact ⟨hml.1, fun _ => hml.2.1 hgne, le_trans hml.2.2 (by omega)⟩

/-- Master lemma for `RoadMutator.mutate`: anchors always hold between the
result and the input; a `True` flag implies a consistent, valid result whose
`control_nodes` differ from the input's; a `False` flag implies
`control_nodes` were restored to the snapshot; and the attempt maximum is at
most the budget. -/
theorem road_mutate_ok_result (E : Env) (lb ub : Int) (budget : Nat)
    (g : BeamNGMember) (r : Rng) (fg : Bool × BeamNGMember) (r2 : Rng)
    (acc : Nat) (h : RoadMutator.mutate E lb ub budget g r = .ok (fg, r2, acc)) :
    anchors g.control_nodes fg.2.control_nodes ∧
    (fg.1 = true → consistent E fg.2 ∧ is_valid E fg.2 = true ∧
      fg.2.control_nodes ≠ g.control_nodes) ∧
    (fg.1 = false → fg.2.control_nodes = g.control_nodes) ∧ acc ≤ budget := by
  unfold RoadMutator.mutate at h
  split at h
  · exact absurd h (by simp)
  · rename_i gF rF acc0 heq
    have hm := mutate_core_master E lb ub budget g r gF rF acc0 heq
    split at h
    · rename_i hcond
      simp only [Except.ok.injEq, Prod.mk.injEq] at h
      obtain ⟨rfl, rfl, rfl⟩ := h
      exact ⟨hm.1, fun _ => ⟨hm.2.1 hcond.2, hcond.1, hcond.2⟩,
        fun hf => absurd hf (by simp), hm.2.2⟩
    · rename_i hcond
      simp only [Except.ok.injEq, Prod.mk.injEq] at h
      obtain ⟨rfl, rfl, rfl⟩ := h
      refine ⟨?_, fun ht => absurd ht (by simp), fun _ => rfl, hm.2.2⟩
      show anchors g.control_nodes g.control_nodes
      exact anchors_refl _

/-! Claim theorems: serialization and evaluation cache. -/

/-- Claim C5: `from_dict (to_dict g)` reproduces `control_nodes`,
`sample_nodes`, `num_spline_nodes` and `distance_to_boundary` value-equal to
`g`'s, with the bounding region rebuilt from its serialized extent to a
value equal to `g`'s. -/
theorem C5_round_trip (g : BeamNGMember) :
    (from_dict (to_dict g)).control_nodes = g.control_nodes ∧
    (from_dict (to_dict g)).sample_nodes = g.sample_nodes ∧
    (from_dict (to_dict g)).num_spline_nodes = g.num_spline_nodes ∧
    (from_dict (to_dict g)).distance_to_boundary = g.distance_to_boundary ∧
    (from_dict (to_dict g)).road_bbox = g.road_bbox := by
  refine ⟨rfl, rfl, rfl, rfl, ?_⟩
  cases g with
  | mk cn sn k bb d s => cases bb; rfl

/-- Claim C9: `clear_evaluation` unsets only the cached distance-to-boundary
and leaves the cached simulation result unchanged; afterwards
`needs_evaluation` returns `true`; and `needs_evaluation` is `true` iff the
distance-to-boundary is unset or the simulation result is unset. -/
theorem C9_clear_evaluation (g : BeamNGMember) :
    (clear_evaluation g).simulation = g.simulation ∧
    (clear_evaluation g).distance_to_boundary = none ∧
    needs_evaluation (clear_evaluation g) = true ∧
    (needs_evaluation g = true ↔
      g.distance_to_boundary = none ∨ g.simulation = none) := by
  refine ⟨rfl, rfl, rfl, ?_⟩
  simp [needs_evaluation, Option.isNone_iff_eq_none]

/-! Claim C8: undo after mutate restores the exact pre-call state. -/

/-- Claim C8: for an in-range gene index, if `mutate_gene` returns `(c, v)`
then `undo_mutation` with the same `(index, c, v)` restores `control_nodes`
and `sample_nodes` exactly to their values before the `mutate_gene` call
(the interpolator is a deterministic function, and the genome starts with
`sample_nodes` equal to the interpolation of its `control_nodes`). -/
theorem C8_undo_restores (E : Env) (lb ub : Int) (g : BeamNGMember)
    (index : Nat) (r : Rng) (c : Nat) (mv : Int) (g1 : BeamNGMember)
    (hidx : index < g.control_nodes.length)
    (hcons : g.sample_nodes = E.catmull_rom g.control_nodes g.num_spline_nodes)
    (h : mutateGeneResult E lb ub g index r = some ((c, mv), g1)) :
    (undo_mutation E g1 index c mv).control_nodes = g.control_nodes ∧
    (undo_mutation E g1 index c mv).sample_nodes = g.sample_nodes := by
  unfold mutateGeneResult mutate_gene at h
  by_cases hb : lb ≤ ub
  · simp only [if_pos hb, Option.some.injEq, Prod.mk.injEq] at h
    obtain ⟨⟨hc, hmv⟩, hg⟩ := h
    subst hc
    subst hmv
    subst hg
    unfold undo_mutation
    constructor
    · show (g.control_nodes.set index _).set index
        (((g.control_nodes.set index _).getD index default).bump _ _) =
        g.control_nodes
      rw [getD_set_self _ _ _ _ hidx, bump_bump_neg, set_set_self,
        set_getD_self _ _ _ hidx]
    · show E.catmull_rom ((g.control_nodes.set index _).set index
        (((g.control_nodes.set index _).getD index default).bump _ _))
        g.num_spline_nodes = g.sample_nodes
      rw [getD_set_self _ _ _ _ hidx, bump_bump_neg, set_set_self,
        set_getD_self _ _ _ hidx, hcons]
  · simp [if_neg hb] at h

/-- Witness for C8: a concrete `mutate_gene` / `undo_mutation` pair on an
8-node genome at index 3, with every hypothesis discharged by evaluation. -/
theorem C8_witness :
    (3 < (genomeOf 8).control_nodes.length ∧
      (genomeOf 8).sample_nodes =
        envAlwaysValid.catmull_rom (genomeOf 8).control_nodes
          (genomeOf 8).num_spline_nodes ∧
      mutateGeneResult envAlwaysValid (-2) 2 (genomeOf 8) 3 rngZero =
        some ((0, -2), gene8after)) ∧
    ((undo_mutation envAlwaysValid gene8after 3 0 (-2)).control_nodes =
        (genomeOf 8).control_nodes ∧
      (undo_mutation envAlwaysValid gene8after 3 0 (-2)).sample_nodes =
        (genomeOf 8).sample_nodes) :=
  ⟨⟨by decide, by decide, by decide⟩,
    C8_undo_restores envAlwaysValid (-2) 2 (genomeOf 8) 3 rngZero 0 (-2)
      gene8after (by decide) (by decide) (by decide)⟩

/-- The value of `roadMutateResult` once the search core's outcome is known:
exactly the final check of `RoadMutator.mutate` lines 193–197. -/
theorem roadMutateResult_of_core (E : Env) (lb ub : Int) (budget : Nat)
    (g : BeamNGMember) (r : Rng) (gF : BeamNGMember) (rF : Rng) (acc : Nat)
    (heq : mutate_core E lb ub budget g r = .ok (gF, rF, acc)) :
    roadMutateResult E lb ub budget g r =
      if is_valid E gF = true ∧ gF.control_nodes ≠ g.control_nodes
        then some (true, gF)
        else some (false, { gF with control_nodes := g.control_nodes }) := by
  have hroad : RoadMutator.mutate E lb ub budget g r =
      if is_valid E gF = true ∧ gF.control_nodes ≠ g.control_nodes
        then .ok ((true, gF), rF, acc)
        else .ok ((false, { gF with control_nodes := g.control_nodes }),
          rF, acc) := by
    unfold RoadMutator.mutate
    rw [heq]
  unfold roadMutateResult
  rw [hroad]
  by_cases hcond : is_valid E gF = true ∧ gF.control_nodes ≠ g.control_nodes
  · rw [if_pos hcond, if_pos hcond]
  · rw [if_neg hcond, if_neg hcond]

/-- The value of `memberMutateResult` once the road-level outcome is known. -/
theorem memberMutateResult_of_road (E : Env) (extent : Nat)
    (g : BeamNGMember) (r : Rng) (fg : Bool × BeamNGMember) (r2 : Rng)
    (acc : Nat)
    (heq : RoadMutator.mutate E (-(extent : Int)) (extent : Int) 10 g r =
      .ok (fg, r2, acc)) :
    memberMutateResult E extent g r =
      some (if fg.1 then some { fg.2 with distance_to_boundary := none }
              else none,
            { fg.2 with distance_to_boundary := none }) := by
  unfold memberMutateResult BeamNGMember.mutate
  rw [heq]

/-- A raising road-level mutate makes `memberMutateResult` report `none`. -/
theorem memberMutateResult_error (E : Env) (extent : Nat) (g : BeamNGMember)
    (r : Rng) (e : Unit)
    (heq : RoadMutator.mutate E (-(extent : Int)) (extent : Int) 10 g r =
      .error e) :
    memberMutateResult E extent g r = none := by
  unfold memberMutateResult BeamNGMember.mutate
  rw [heq]

/-- The value of `memberMutateAttempts` once the road-level outcome is
known. -/
theorem memberMutateAttempts_of_road (E : Env) (extent : Nat)
    (g : BeamNGMember) (r : Rng) (fg : Bool × BeamNGMember) (r2 : Rng)
    (acc : Nat)
    (heq : RoadMutator.mutate E (-(extent : Int)) (extent : Int) 10 g r =
      .ok (fg, r2, acc)) :
    memberMutateAttempts E extent g r = some acc := by
  unfold memberMutateAttempts BeamNGMember.mutate
  rw [heq]

/-- A raising road-level mutate makes `memberMutateAttempts` report
`none`. -/
theorem memberMutateAttempts_error (E : Env) (extent : Nat)
    (g : BeamNGMember) (r : Rng) (e : Unit)
    (heq : RoadMutator.mutate E (-(extent : Int)) (extent : Int) 10 g r =
      .error e) :
    memberMutateAttempts E extent g r = none := by
  unfold memberMutateAttempts BeamNGMember.mutate
  rw [heq]

/-! Claim theorems about the mutation operator. -/

/-- Claim C6: for every terminating `mutate()` call, successful or failed,
the first 3 and the last 3 control points are identical before and after the
call. -/
theorem C6_anchor_stability (E : Env) (lb ub : Int) (budget : Nat)
    (g : BeamNGMember) (r : Rng) (flag : Bool) (g2 : BeamNGMember)
    (h : roadMutateResult E lb ub budget g r = some (flag, g2)) :
    g2.control_nodes.take 3 = g.control_nodes.take 3 ∧
    g2.control_nodes.drop (g.control_nodes.length - 3) =
      g.control_nodes.drop (g.control_nodes.length - 3) := by
  unfold roadMutateResult at h
  split at h
  · rename_i fg r2 acc heq
    simp only [Option.some.injEq] at h
    subst h
    have hm := road_mutate_ok_result E lb ub budget g r _ r2 acc heq
    exact ⟨hm.1.2.1, hm.1.2.2⟩
  · exact absurd h (by simp)

/-- Witness for C6: a concrete successful run on an 8-node genome; the
anchor nodes are unchanged. -/
theorem C6_witness :
    (roadMutateResult envAlwaysValid (-2) 2 10 (genomeOf 8) rngZero =
      some (true, gene8after)) ∧
    (gene8after.control_nodes.take 3 = (genomeOf 8).control_nodes.take 3 ∧
      gene8after.control_nodes.drop ((genomeOf 8).control_nodes.length - 3) =
        (genomeOf 8).control_nodes.drop ((genomeOf 8).control_nodes.length - 3)) :=
  ⟨by decide, C6_anchor_stability envAlwaysValid (-2) 2 10 (genomeOf 8)
    rngZero true gene8after (by decide)⟩

/-- Claim C7: `RoadMutator.mutate` returns `True` iff the genome at the end
of the search is valid and its `control_nodes` differ from the pre-call
snapshot; in every other case the snapshot is restored and `False` is
returned. -/
theorem C7_final_success_condition (E : Env) (lb ub : Int) (budget : Nat)
    (g : BeamNGMember) (r : Rng) (gF : BeamNGMember)
    (hc : mutateCoreResult E lb ub budget g r = some gF) :
    (roadMutateResult E lb ub budget g r = some (true, gF) ↔
      (is_valid E gF = true ∧ gF.control_nodes ≠ g.control_nodes)) ∧
    (¬(is_valid E gF = true ∧ gF.control_nodes ≠ g.control_nodes) →
      roadMutateResult E lb ub budget g r =
        some (false, { gF with control_nodes := g.control_nodes })) := by
  unfold mutateCoreResult at hc
  split at hc
  · rename_i gF0 rF acc heq
    simp only [Option.some.injEq] at hc
    subst hc
    have hr := roadMutateResult_of_core E lb ub budget g r gF0 rF acc heq
    by_cases hcond : is_valid E gF0 = true ∧
        gF0.control_nodes ≠ g.control_nodes
    · rw [hr, if_pos hcond]
      exact ⟨⟨fun _ => hcond, fun _ => rfl⟩, fun hn => absurd hcond hn⟩
    · rw [hr, if_neg hcond]
      refine ⟨⟨fun hsome => ?_, fun h2 => absurd h2 hcond⟩, fun _ => rfl⟩
      simp at hsome
  · exact absurd hc (by simp)

/-- Witness for C7: a concrete core run on an 8-node genome, with the final
check evaluated both ways. -/
theorem C7_witness :
    (mutateCoreResult envAlwaysValid (-2) 2 10 (genomeOf 8) rngZero =
      some gene8after) ∧
    ((roadMutateResult envAlwaysValid (-2) 2 10 (genomeOf 8) rngZero =
        some (true, gene8after) ↔
      (is_valid envAlwaysValid gene8after = true ∧
        gene8after.control_nodes ≠ (genomeOf 8).control_nodes)) ∧
    (¬(is_valid envAlwaysValid gene8after = true ∧
        gene8after.control_nodes ≠ (genomeOf 8).control_nodes) →
      roadMutateResult envAlwaysValid (-2) 2 10 (genomeOf 8) rngZero =
        some (false,
          { gene8after with control_nodes := (genomeOf 8).control_nodes }))) :=
  ⟨by decide, C7_final_success_condition envAlwaysValid (-2) 2 10 (genomeOf 8)
    rngZero gene8after (by decide)⟩

/-- Claim C1, amended: when `BeamNGMember.mutate` fails (returns the `None`
sentinel), `control_nodes` is restored exactly to the pre-call snapshot, but
the cached distance-to-boundary is unconditionally cleared rather than
preserved (and `sample_nodes` may keep the value from the last
recomputation). -/
theorem C1_amended_failure_state (E : Env) (extent : Nat) (g : BeamNGMember)
    (r : Rng) (g3 : BeamNGMember)
    (h : memberMutateResult E extent g r = some (none, g3)) :
    g3.control_nodes = g.control_nodes ∧ g3.distance_to_boundary = none := by
  cases hq : RoadMutator.mutate E (-(extent : Int)) (extent : Int) 10 g r with
  | error e =>
    rw [memberMutateResult_error E extent g r e hq] at h
    exact absurd h (by simp)
  | ok out =>
    obtain ⟨fg, r2, acc⟩ := out
    rw [memberMutateResult_of_road E extent g r fg r2 acc hq] at h
    simp only [Option.some.injEq, Prod.mk.injEq] at h
    obtain ⟨hres, hst⟩ := h
    cases hfg : fg.1 with
    | true =>
      rw [hfg] at hres
      simp at hres
    | false =>
      subst hst
      have hm := road_mutate_ok_result E (-(extent : Int)) (extent : Int) 10
        g r fg r2 acc hq
      exact ⟨hm.2.2.1 hfg, rfl⟩

/-- Witness for C1's amended theorem: a failing run on a 7-node genome with
a cached distance-to-boundary. -/
theorem C1_witness :
    (memberMutateResult envAlwaysValid 2 (genomeOf 7) rngZero =
      some (none, clear_evaluation (genomeOf 7))) ∧
    ((clear_evaluation (genomeOf 7)).control_nodes =
        (genomeOf 7).control_nodes ∧
      (clear_evaluation (genomeOf 7)).distance_to_boundary = none) :=
  ⟨by decide, C1_amended_failure_state envAlwaysValid 2 (genomeOf 7) rngZero
    (clear_evaluation (genomeOf 7)) (by decide)⟩

/-- Claim C2, amended: every operation that edits `control_nodes`
(`mutate_gene`, `undo_mutation`) recomputes `sample_nodes`, and a
*successful* `mutate()` leaves the genome with `sample_nodes` equal to the
interpolation of its `control_nodes`; the invariant fails only in the state
left by a failed `mutate()` that attempted at least one perturbation. -/
theorem C2_amended_success_consistency (E : Env) (lb ub : Int) (budget : Nat)
    (g : BeamNGMember) (r : Rng) (g2 : BeamNGMember)
    (h : roadMutateResult E lb ub budget g r = some (true, g2)) :
    g2.sample_nodes = E.catmull_rom g2.control_nodes g2.num_spline_nodes := by
  unfold roadMutateResult at h
  split at h
  · rename_i fg r2 acc heq
    simp only [Option.some.injEq] at h
    subst h
    exact ((road_mutate_ok_result E lb ub budget g r _ r2 acc heq).2.1 rfl).1
  · exact absurd h (by simp)

/-- Witness for C2's amended theorem: a concrete successful run keeps
`sample_nodes` equal to the interpolation of `control_nodes`. -/
theorem C2_witness :
    (roadMutateResult envAlwaysValid (-2) 2 10 (genomeOf 8) rngZero =
      some (true, gene8after)) ∧
    gene8after.sample_nodes = envAlwaysValid.catmull_rom
      gene8after.control_nodes gene8after.num_spline_nodes :=
  ⟨by decide, C2_amended_success_consistency envAlwaysValid (-2) 2 10
    (genomeOf 8) rngZero gene8after (by decide)⟩

/-- Claim C3, amended: every gene index attempted by the search lies in the
inclusive range `[3, n-3]` (not `[3, n-4]`: `random.randint` is inclusive),
and the count-based exhaustion check fires exactly when the number of
attempted indices reaches `n - 5` — the size of `[3, n-3]`. -/
theorem C3_amended_range (n : Int) (att : List Int) (r : Rng) (i : Int)
    (att2 : List Int) (h : nextGeneIndexResult n att r = some (i, att2)) :
    (i ≠ -1 → 3 ≤ i ∧ i ≤ n - 3 ∧ i ∉ att ∧ att2 = i :: att) ∧
    ((att.length : Int) = n - 5 → i = -1 ∧ att2 = att) := by
  unfold nextGeneIndexResult at h
  split at h
  · rename_i i0 att0 r0 heq
    simp only [Option.some.injEq, Prod.mk.injEq] at h
    obtain ⟨rfl, rfl⟩ := h
    constructor
    · intro hne
      rcases next_gene_index_spec n att r i0 att0 r0 heq with ⟨h1, _⟩ | hr
      · exact absurd h1 hne
      · exact hr
    · intro hex
      unfold next_gene_index at heq
      rw [if_pos hex] at heq
      simp only [Except.ok.injEq, Prod.mk.injEq] at heq
      exact ⟨heq.1.symm, heq.2.1.symm⟩
  · exact absurd h (by simp)

/-- Witness for C3's amended theorem: with `n = 8` the first draw of
`rngDraw5` lands on index 5 — inside `[3, n-3]`, outside the spec's
`[3, n-4]`. -/
theorem C3_witness :
    (nextGeneIndexResult 8 [] rngDraw5 = some (5, [5])) ∧
    (((5 : Int) ≠ -1 → (3 : Int) ≤ 5 ∧ (5 : Int) ≤ 8 - 3 ∧
        (5 : Int) ∉ ([] : List Int) ∧ ([5] : List Int) = [5]) ∧
      ((([] : List Int).length : Int) = 8 - 5 →
        (5 : Int) = -1 ∧ ([5] : List Int) = [])) :=
  ⟨by decide, C3_amended_range 8 [] rngDraw5 5 [5] (by decide)⟩

/-- Claim C4, amended: a genome with exactly 7 control points (so
`n - 5 = 0`) makes the very first index draw report exhaustion:
`mutate()` returns failure at once, applies no perturbation, and the genome
is returned entirely unchanged.  (With 8 control points `n - 5 = 1`, so the
range `[3, 3]` is non-empty and a perturbation is attempted.) -/
theorem C4_amended_immediate_exhaustion (E : Env) (lb ub : Int)
    (budget : Nat) (g : BeamNGMember) (r : Rng)
    (h : g.control_nodes.length = 7) :
    roadMutateResult E lb ub budget g r = some (false, g) := by
  have hn : next_gene_index ((g.control_nodes.length : Int) - 2) [] r =
      .ok (-1, [], r) := by
    unfold next_gene_index
    rw [h, if_pos (by decide)]
  have hfuel : (((g.control_nodes.length : Int) - 2 - 5).toNat) = 0 := by
    rw [h]
    decide
  have hl : mutate_loop E lb ub budget ((g.control_nodes.length : Int) - 2)
      (((g.control_nodes.length : Int) - 2 - 5).toNat) (-1) [] g r 0 =
      .ok (g, -1, r, 0) := by
    rw [hfuel]
    unfold mutate_loop
    rw [if_pos rfl]
  have hc : mutate_core E lb ub budget g r = .ok (g, r, 0) := by
    unfold mutate_core
    simp only [hn, hl]
    rw [if_pos trivial]
  have hr := roadMutateResult_of_core E lb ub budget g r g r 0 hc
  rw [hr, if_neg (fun hcc => hcc.2 rfl)]

/-- Witness for C4's amended theorem: the concrete 7-node genome. -/
theorem C4_witness :
    ((genomeOf 7).control_nodes.length = 7) ∧
    roadMutateResult envAlwaysValid (-2) 2 10 (genomeOf 7) rngZero =
      some (false, genomeOf 7) :=
  ⟨by decide, C4_amended_immediate_exhaustion envAlwaysValid (-2) 2 10
    (genomeOf 7) rngZero (by decide)⟩

/-- Claim C10: through `BeamNGMember.mutate` the undo budget in effect is
the default argument `10`: the instrumented per-gene attempt maximum never
exceeds `10`, strictly below the unused class constant
`RoadMutator.NUM_UNDO_ATTEMPTS = 20`. -/
theorem C10_undo_budget (E : Env) (extent : Nat) (g : BeamNGMember)
    (r : Rng) (acc : Nat) (h : memberMutateAttempts E extent g r = some acc) :
    acc ≤ 10 ∧ 10 < RoadMutator.NUM_UNDO_ATTEMPTS := by
  cases hq : RoadMutator.mutate E (-(extent : Int)) (extent : Int) 10 g r with
  | error e =>
    rw [memberMutateAttempts_error E extent g r e hq] at h
    exact absurd h (by simp)
  | ok out =>
    obtain ⟨fg, r2, acc0⟩ := out
    rw [memberMutateAttempts_of_road E extent g r fg r2 acc0 hq] at h
    simp only [Option.some.injEq] at h
    subst h
    exact ⟨(road_mutate_ok_result E (-(extent : Int)) (extent : Int) 10 g r
      fg r2 acc0 hq).2.2.2, by decide⟩

/-- Witness for C10: a concrete run through `BeamNGMember.mutate` whose
attempt maximum is 0. -/
theorem C10_witness :
    (memberMutateAttempts envAlwaysValid 2 (genomeOf 8) rngZero = some 0) ∧
    (0 ≤ 10 ∧ 10 < RoadMutator.NUM_UNDO_ATTEMPTS) :=
  ⟨by decide, C10_undo_budget envAlwaysValid 2 (genomeOf 8) rngZero 0
    (by decide)⟩

/-! Counterexamples for claims C1–C4. -/

/-- Counterexample to C1 as stated: on a 7-control-node genome with a cached
distance-to-boundary of `1`, `BeamNGMember.mutate` fails (returns the `None`
sentinel) yet the genome's cached distance-to-boundary afterwards is `None`,
not its pre-call value `1`. -/
theorem C1_counterexample :
    (memberMutateResult envAlwaysValid 2 (genomeOf 7) rngZero).map
      (fun p => (p.1, p.2.distance_to_boundary)) = some (none, none) ∧
    (genomeOf 7).distance_to_boundary = some 1 := by
  constructor
  · decide
  · decide

/-- Counterexample to C2 as stated: starting from a consistent 8-node genome
(`sample_nodes` equal to the interpolation of `control_nodes`), a failed
`RoadMutator.mutate` run (always-invalid oracle, zero undo budget) reaches a
state whose `sample_nodes` is NOT the interpolation of its restored
`control_nodes`. -/
theorem C2_counterexample :
    ((genomeOf 8).sample_nodes =
      envNeverValid.catmull_rom (genomeOf 8).control_nodes
        (genomeOf 8).num_spline_nodes) ∧
    (roadMutateResult envNeverValid (-2) 2 0 (genomeOf 8) rngZero).map
      (fun p => (p.1, decide (p.2.sample_nodes =
        envNeverValid.catmull_rom p.2.control_nodes p.2.num_spline_nodes))) =
      some (false, false) := by
  constructor
  · decide
  · decide

/-- Counterexample to C3 as stated: with 10 control nodes (`n = 8`), the
claimed eligible range is `[3, n-4] = [3, 4]`, yet a run of
`RoadMutator.mutate` attempts (and successfully mutates) gene index 5: node
5's `x` moves from `5` to `3`. -/
theorem C3_counterexample :
    (roadMutateResult envAlwaysValid (-2) 2 10 (genomeOf 10) rngDraw5).map
      (fun p => (p.1, p.2.control_nodes.getD 5 default)) =
      some (true, ⟨3, 0, 0, 0⟩) ∧
    (genomeOf 10).control_nodes.getD 5 default = ⟨5, 0, 0, 0⟩ := by
  constructor
  · decide
  · decide

/-- Counterexample to C4 as stated: on a genome with exactly 8 control
points, `n - 5 = 1 > 0`, so the interior range is NOT empty: with an
always-valid oracle `mutate()` returns success (not failure) and
`control_nodes` is changed (a perturbation was applied at index 3). -/
theorem C4_counterexample :
    (memberMutateResult envAlwaysValid 2 (genomeOf 8) rngZero).map
      (fun p => (p.1.isSome,
        decide (p.2.control_nodes = (genomeOf 8).control_nodes))) =
      some (true, false) := by
  decide

end BNG
